import Mathlib

/-!
Shallow embedding of the Flow desktop front-end timeline widget
(`src/desktop_front/threat_timeline_widget.py`) and the table-column
persistence manager (`src/desktop_front/ui_utils.py`).

Conventions of the embedding:
* Storage-neutral timestamps are integers (seconds); `timezone.localtime`
  followed by `strftime` is modelled as shifting by the viewer's UTC offset
  and printing the shifted value (the exact text of the format string is
  irrelevant to every property below).
* Python exceptions are modelled with `Option` results (the process-ancestry
  lookup) and with an explicit fault-injection phase for the blanket
  `try/except` of `refresh`.
* Python truthiness of optional strings (`None` and `""` are falsy) and of
  optional integers (`None` and `0` are falsy) is made explicit.
* The Django models `Alert`, `QuarantinedFile` and the connection record live
  outside this repository's front-end sources; their field shapes are
  modelled from the spec's external-interface section (section 6).
-/

namespace Flow

/-- Modelled from the spec: the network-connection record linked from an
alert, "itself exposing source/destination/port/process-id".  The source and
destination addresses may be absent (the code guards `if conn and
conn.dst_ip`), and the process id may be absent (`if conn and conn.pid`);
the destination port is listed by the spec without an optionality marker and
is modelled as always present. -/
structure Connection where
  src_ip : Option String
  dst_ip : Option String
  dst_port : Nat
  pid : Option Nat
deriving DecidableEq, Repr

/-- Modelled from the spec: "Each alert record exposes: timestamp, type,
severity, free-text message, optional source/destination address+port,
optional link to a connection record". -/
structure Alert where
  timestamp : Int
  alert_type : Option String
  severity : Option String
  message : Option String
  src_ip : Option String
  dst_ip : Option String
  dst_port : Option Nat
  connection : Option Connection
deriving DecidableEq, Repr

/-- Modelled from the spec: "Each quarantine record exposes: detection
timestamp, filename". -/
structure QuarantinedFile where
  detected_at : Int
  filename : String
deriving DecidableEq, Repr

/-- The relational store the two queries of `refresh` read from. -/
structure Database where
  alerts : List Alert
  qfiles : List QuarantinedFile
deriving Repr

/-- Python truthiness of an optional string: `None` and `""` are falsy. -/
def strTruthy (o : Option String) : Bool :=
  !(o.getD "").isEmpty

/-- Python truthiness of an optional integer: `None` and `0` are falsy. -/
def natTruthy (o : Option Nat) : Bool :=
  o.getD 0 != 0

/-- Python `o or d` for an optional string `o` and a string default `d`. -/
def pyOrStr (o : Option String) (d : String) : String :=
  if strTruthy o then o.getD "" else d

/-- Source resolution, `threat_timeline_widget.py` lines 151-153:
`src = alert.src_ip or ""`, then `if not src and conn: src = conn.src_ip or ""`. -/
def srcOf (a : Alert) : String :=
  let src := pyOrStr a.src_ip ""
  if src.isEmpty then
    match a.connection with
    | some conn => pyOrStr conn.src_ip ""
    | none => src
  else src

/-- The `elif alert.dst_ip` / `else` part of destination resolution,
`threat_timeline_widget.py` lines 159-161:
`dst_port = f":{alert.dst_port}" if alert.dst_port else ""` and
`dst = f"{alert.dst_ip}{dst_port}"`, with `dst = ""` when `alert.dst_ip`
is falsy. -/
def dstOwn (a : Alert) : String :=
  if strTruthy a.dst_ip then
    a.dst_ip.getD "" ++ (if natTruthy a.dst_port then ":" ++ toString (a.dst_port.getD 0) else "")
  else ""

/-- Destination resolution, `threat_timeline_widget.py` lines 156-161:
`if conn and conn.dst_ip: dst = f"{conn.dst_ip}:{conn.dst_port}"`,
otherwise fall back to the alert's own destination fields. -/
def dstOf (a : Alert) : String :=
  match a.connection with
  | some conn =>
      if strTruthy conn.dst_ip then
        conn.dst_ip.getD "" ++ ":" ++ toString conn.dst_port
      else dstOwn a
  | none => dstOwn a

/-- Process-chain resolution, `threat_timeline_widget.py` lines 164-170.
The external `build_process_chain` is a parameter; a `none` result models the
lookup raising, in which case the `except` branch degrades to
`f"PID {conn.pid}"`.  Python truthiness: a pid of `0` or `None` skips the
lookup and leaves the chain empty. -/
def chainOf (lookup : Nat → Option String) (a : Alert) : String :=
  match a.connection with
  | some conn =>
      if natTruthy conn.pid then
        match lookup (conn.pid.getD 0) with
        | some s => s
        | none => "PID " ++ toString (conn.pid.getD 0)
      else ""
  | none => ""

/-- The row dictionary built for one timeline entry,
`threat_timeline_widget.py` lines 172-182 and 194-205. -/
structure Row where
  time : Int
  type : String
  severity : String
  src : String
  dst : String
  details : String
  process_chain : String
deriving DecidableEq, Repr

/-- The row appended for one alert, `threat_timeline_widget.py` lines 172-182. -/
def alertRow (lookup : Nat → Option String) (a : Alert) : Row :=
  { time := a.timestamp
    type := pyOrStr a.alert_type "Alert"
    severity := pyOrStr a.severity ""
    src := srcOf a
    dst := dstOf a
    details := pyOrStr a.message ""
    process_chain := chainOf lookup a }

/-- The row appended for one quarantine event,
`threat_timeline_widget.py` lines 194-205. -/
def qRow (q : QuarantinedFile) : Row :=
  { time := q.detected_at
    type := "Quarantine"
    severity := "high"
    src := ""
    dst := ""
    details := "File quarantined: " ++ q.filename
    process_chain := "" }

/-- Insert `x` into a descending-sorted list, after every element whose key
is strictly greater and before the first element whose key is less than or
equal.  In the insertion sort below `x` is always earlier in the original
list than everything already inserted, so placing it before equal keys is
exactly stability. -/
def insertDescBy {α : Type _} (key : α → Int) (x : α) : List α → List α
  | [] => [x]
  | y :: ys => if key x < key y then y :: insertDescBy key x ys else x :: y :: ys

/-- Python's `list.sort(key=..., reverse=True)`: a stable descending sort
(CPython documents that `reverse=True` preserves the relative order of
elements that compare equal).  A stable sort for a total preorder is
extensionally unique, so it is embedded as stable insertion sort under
"a before b iff key b ≤ key a". -/
def pySortDescBy {α : Type _} (key : α → Int) : List α → List α
  | [] => []
  | x :: xs => insertDescBy key x (pySortDescBy key xs)

/-- The alert query, `threat_timeline_widget.py` line 141:
`Alert.objects.all().order_by("-timestamp")[:100]`. -/
def fetchAlerts (db : Database) : List Alert :=
  (pySortDescBy (fun a => a.timestamp) db.alerts).take 100

/-- The quarantine look-back cutoff, `threat_timeline_widget.py` line 186:
`timezone.now() - timedelta(hours=24)`. -/
def quarantineWindow (now : Int) : Int :=
  now - 24 * 3600

/-- The quarantine query, `threat_timeline_widget.py` lines 188-191:
`QuarantinedFile.objects.filter(detected_at__gte=window).order_by("-detected_at")[:50]`. -/
def fetchQuarantine (db : Database) (now : Int) : List QuarantinedFile :=
  (pySortDescBy (fun q => q.detected_at)
      (db.qfiles.filter (fun q => decide (quarantineWindow now ≤ q.detected_at)))).take 50

/-- The merged row list before sorting: alert rows in fetch order, then
quarantine rows in fetch order (`rows.append` in the two loops). -/
def buildRows (lookup : Nat → Option String) (alerts : List Alert)
    (qs : List QuarantinedFile) : List Row :=
  alerts.map (alertRow lookup) ++ qs.map qRow

/-- The sorted row list handed to the table,
`threat_timeline_widget.py` line 211: `rows.sort(key=lambda r: r["time"], reverse=True)`. -/
def refreshRows (lookup : Nat → Option String) (db : Database) (now : Int) : List Row :=
  pySortDescBy (fun r => r.time) (buildRows lookup (fetchAlerts db) (fetchQuarantine db now))

/-- Display-only local-time conversion, `threat_timeline_widget.py` lines 224-225:
`timezone.localtime(row["time"])` followed by `strftime`.  Modelled as a shift
by the viewer's UTC offset, then printing. -/
def formatLocal (tz : Int) (t : Int) : String :=
  toString (t + tz)

/-- The seven cells written for one row, `threat_timeline_widget.py` lines 224-231. -/
def renderRow (tz : Int) (r : Row) : List String :=
  [formatLocal tz r.time, r.type, r.severity, r.src, r.dst, r.details, r.process_chain]

/-- The visible table contents: one list of cell texts per row, plus the
optional cell span set by `setSpan`, as (row, column, rowSpan, columnSpan).
Cells the code never writes are rendered empty. -/
structure TableView where
  cells : List (List String)
  span : Option (Nat × Nat × Nat × Nat)
deriving DecidableEq, Repr

/-- The table-update step, `threat_timeline_widget.py` lines 214-231:
clear, then either the synthetic "no events" row spanning all 7 columns, or
one rendered row per merged row. -/
def renderTable (tz : Int) (rows : List Row) : TableView :=
  if rows.isEmpty then
    { cells := [["No security events found.", "", "", "", "", "", ""]]
      span := some (0, 0, 1, 7) }
  else
    { cells := rows.map (renderRow tz), span := none }

/-- One fault-free run of `ThreatTimelineWidget.refresh`, lines 136-231. -/
def refresh (lookup : Nat → Option String) (db : Database) (now : Int) (tz : Int) : TableView :=
  renderTable tz (refreshRows lookup db now)

/-- Log levels used inside `refresh`: `log.info` (line 143), `log.debug`
(line 208), `log.error` (line 235). -/
inductive LogLevel
  | info
  | debug
  | error
deriving DecidableEq, Repr

/-- The points of `refresh` at which an exception can be injected:
the alert query (line 141), the alert-row loop (147-182), the quarantine
query (188-191, guarded by its own inner `try`), the sort (211), the
clearing `setRowCount(0)` (214), and the repopulation loop (216-231). -/
inductive Phase
  | fetchAlertsP
  | buildRowsP
  | fetchQP
  | sortRowsP
  | clearP
  | populateP
deriving DecidableEq, Repr

/-- Execution of `ThreatTimelineWidget.refresh` (lines 136-235) with an injected
exception: `fault` names the phase that raises (if any), `faultRow` the
number of rows already written when the repopulation loop raises, and
`prev` the table contents displayed before this cycle.  The quarantine
query's fault is absorbed by the inner `try/except` (log at debug level,
continue with alert rows only); every other fault is absorbed by the
blanket outer `try/except` (log at error level, drop the update).  The
result is the table contents after the cycle together with the log
entries it emitted. -/
def refreshExec (lookup : Nat → Option String) (db : Database) (now : Int) (tz : Int)
    (fault : Option Phase) (faultRow : Nat) (prev : TableView) : TableView × List LogLevel :=
  if fault = some Phase.fetchAlertsP then (prev, [LogLevel.error])
  else
    let alerts := fetchAlerts db
    if fault = some Phase.buildRowsP then (prev, [LogLevel.info, LogLevel.error])
    else
      let aRows := alerts.map (alertRow lookup)
      let qres : List Row × List LogLevel :=
        if fault = some Phase.fetchQP then ([], [LogLevel.debug])
        else ((fetchQuarantine db now).map qRow, [])
      let rows := aRows ++ qres.1
      if fault = some Phase.sortRowsP then (prev, [LogLevel.info] ++ qres.2 ++ [LogLevel.error])
      else
        let sorted := pySortDescBy (fun r => r.time) rows
        if fault = some Phase.clearP then (prev, [LogLevel.info] ++ qres.2 ++ [LogLevel.error])
        else if fault = some Phase.populateP then
          (if sorted.isEmpty then { cells := [], span := none }
           else { cells := (sorted.map (renderRow tz)).take faultRow, span := none },
           [LogLevel.info] ++ qres.2 ++ [LogLevel.error])
        else (renderTable tz sorted, [LogLevel.info] ++ qres.2)

/-- The header layout captured by `QHeaderView.saveState` and replayed by
`restoreState`: per-column widths and the visual column order.  The Qt
serialization round-trip is the identity on this data. -/
structure HeaderLayout where
  widths : List Nat
  order : List Nat
deriving DecidableEq, Repr

/-- The table state the column manager touches: its header layout, the
`stretchLastSection` flag, and the current viewport width. -/
structure TableState where
  layout : HeaderLayout
  stretchLast : Bool
  viewportWidth : Nat
deriving DecidableEq, Repr

/-- State of `TableColumnManager`, `ui_utils.py` lines 18-21: the managed
table, the `settings_key`, and the `default_set` flag. -/
structure ManagerState where
  table : TableState
  settings_key : String
  default_set : Bool
deriving DecidableEq, Repr

/-- The `QSettings("Flow", "FlowApp")` store: a key-value journal where
`setValue` prepends and lookup sees the latest entry. -/
abbrev Settings := List (String × HeaderLayout)

/-- Lookup `settings.value(key)`. -/
def settingsGet (s : Settings) (k : String) : Option HeaderLayout :=
  (s.find? (fun e => e.1 == k)).map (fun e => e.2)

/-- Update `settings.setValue(key, v)`. -/
def settingsSet (s : Settings) (k : String) (v : HeaderLayout) : Settings :=
  (k, v) :: s

/-- Method `TableColumnManager.save_state`, `ui_utils.py` lines 58-62: persist the
full header layout under the manager's key. -/
def save_state (settings : Settings) (m : ManagerState) : Settings :=
  settingsSet settings m.settings_key m.table.layout

/-- Method `TableColumnManager.restore_state`, `ui_utils.py` lines 34-56: if a
layout is stored under the key, apply it and mark `default_set`; otherwise
leave the layout and clear `default_set`.  (The re-connection of
`sectionResized` to `save_state` and the resize-mode overrides have no
effect on the modelled state.) -/
def restore_state (settings : Settings) (m : ManagerState) : ManagerState :=
  match settingsGet settings m.settings_key with
  | some st => { m with table := { m.table with layout := st }, default_set := true }
  | none => { m with default_set := false }

/-- Method `TableColumnManager.setup`, `ui_utils.py` lines 23-32: enable
interactive resizing, `setStretchLastSection(True)`, then `restore_state`. -/
def setup (settings : Settings) (m : ManagerState) : ManagerState :=
  restore_state settings { m with table := { m.table with stretchLast := true } }

/-- Call `table.setColumnWidth(i, w)`. -/
def setColumnWidth (t : TableState) (i w : Nat) : TableState :=
  { t with layout := { t.layout with widths := t.layout.widths.set i w } }

/-- Method `TableColumnManager.handle_resize`, `ui_utils.py` lines 64-83. -/
def handle_resize (m : ManagerState) : ManagerState :=
  if m.default_set then m
  else
    let width := m.table.viewportWidth
    if 300 < width then
      let count := m.table.layout.widths.length
      if 0 < count then
        let col_width := width / count
        let limit := if m.table.stretchLast then count - 1 else count
        { m with
          table := (List.range limit).foldl (fun t i => setColumnWidth t i col_width) m.table
          default_set := true }
      else m
    else m

/-- One user-driven column resize: the header width changes, then the
`sectionResized` signal (connected in `restore_state`) synchronously calls
`save_state`.  Returns the new manager state and the updated settings. -/
def user_column_resize (settings : Settings) (m : ManagerState) (i w : Nat) :
    ManagerState × Settings :=
  let m2 := { m with table := setColumnWidth m.table i w }
  (m2, save_state settings m2)

/-! Concrete sample data used to instantiate the theorems below. -/

/-- A process-ancestry lookup that always fails. -/
def noChain : Nat → Option String := fun _ => none

/-- An empty store. -/
def emptyDb : Database := { alerts := [], qfiles := [] }

/-- Some previously displayed table contents. -/
def prevView : TableView :=
  { cells := [["2024-01-01 00:00:00", "Alert", "low", "", "", "old row", ""]], span := none }

/-- A connection with a process id but no destination address. -/
def sampleConn : Connection :=
  { src_ip := none, dst_ip := none, dst_port := 443, pid := some 7 }

/-- An alert with only its own destination address: no ports anywhere. -/
def sampleAlertNoPort : Alert :=
  { timestamp := 5, alert_type := none, severity := none, message := none,
    src_ip := none, dst_ip := some "10.0.0.9", dst_port := none, connection := none }

/-- An alert whose connection carries a process id. -/
def sampleAlertPid : Alert :=
  { timestamp := 3, alert_type := some "PortScan", severity := some "high",
    message := some "scan detected", src_ip := some "1.1.1.1", dst_ip := none,
    dst_port := none, connection := some sampleConn }

/-- A 7-column header layout with uniform 100-pixel widths. -/
def sampleLayout : HeaderLayout :=
  { widths := [100, 100, 100, 100, 100, 100, 100], order := [0, 1, 2, 3, 4, 5, 6] }

/-- A column manager over a 900-pixel-wide 7-column table. -/
def sampleMgr : ManagerState :=
  { table := { layout := sampleLayout, stretchLast := false, viewportWidth := 900 },
    settings_key := "timeline_table_state", default_set := false }

/-- A freshly constructed manager over a same-key table whose widths differ. -/
def freshMgr : ManagerState :=
  { table :=
      { layout := { widths := [0, 0, 0, 0, 0, 0, 0], order := [0, 1, 2, 3, 4, 5, 6] }
        stretchLast := false
        viewportWidth := 0 }
    settings_key := "timeline_table_state"
    default_set := false }

/-- A quarantine record detected 24 hours and 1 second before time 0. -/
def q1 : QuarantinedFile := { detected_at := -86401, filename := "evil.exe" }

/-- A quarantine record detected 23 hours 59 minutes before time 0. -/
def q2 : QuarantinedFile := { detected_at := -86340, filename := "worm.bin" }

/-- A store holding the two boundary quarantine records. -/
def qDb : Database := { alerts := [], qfiles := [q1, q2] }

/-- A store holding one alert and one quarantine record. -/
def sampleDb : Database := { alerts := [sampleAlertPid], qfiles := [q2] }

/-! Generic facts about the stable descending sort. -/

theorem insertDescBy_perm {α : Type _} (key : α → Int) (x : α) (l : List α) :
    (insertDescBy key x l).Perm (x :: l) := by
  induction l with
  | nil => exact List.Perm.refl _
  | cons y ys ih =>
      unfold insertDescBy
      split
      · exact (ih.cons y).trans (List.Perm.swap x y ys)
      · exact List.Perm.refl _

theorem pySortDescBy_perm {α : Type _} (key : α → Int) (l : List α) :
    (pySortDescBy key l).Perm l := by
  induction l with
  | nil => exact List.Perm.refl _
  | cons x xs ih => exact (insertDescBy_perm key x _).trans (ih.cons x)

theorem insertDescBy_pairwise {α : Type _} (key : α → Int) (x : α) (l : List α)
    (h : l.Pairwise (fun a b => key b ≤ key a)) :
    (insertDescBy key x l).Pairwise (fun a b => key b ≤ key a) := by
  induction l with
  | nil => simp [insertDescBy]
  | cons y ys ih =>
      rw [List.pairwise_cons] at h
      unfold insertDescBy
      split
      · rename_i hlt
        rw [List.pairwise_cons]
        refine ⟨?_, ih h.2⟩
        intro z hz
        rcases List.mem_cons.mp (((insertDescBy_perm key x ys).mem_iff).mp hz) with hz | hz
        · subst hz
          omega
        · exact h.1 z hz
      · rename_i hge
        rw [List.pairwise_cons]
        refine ⟨?_, List.pairwise_cons.mpr h⟩
        intro z hz
        rcases List.mem_cons.mp hz with hz | hz
        · subst hz
          omega
        · have := h.1 z hz
          omega

theorem pySortDescBy_sorted {α : Type _} (key : α → Int) (l : List α) :
    (pySortDescBy key l).Pairwise (fun a b => key b ≤ key a) := by
  induction l with
  | nil => simp [pySortDescBy]
  | cons x xs ih => exact insertDescBy_pairwise key x _ ih

theorem insertDescBy_filter_key {α : Type _} (key : α → Int) (t : Int) (x : α) (l : List α) :
    (insertDescBy key x l).filter (fun a => key a == t) =
      (x :: l).filter (fun a => key a == t) := by
  induction l with
  | nil => rfl
  | cons y ys ih =>
      unfold insertDescBy
      split
      · rename_i hlt
        by_cases hy : key y = t
        · have hx : (key x == t) = false := by
            simp only [beq_eq_false_iff_ne, ne_eq]
            omega
          simp [List.filter_cons, hx, ih]
        · have hy' : (key y == t) = false := by
            simp only [beq_eq_false_iff_ne, ne_eq]
            exact hy
          simp [List.filter_cons, hy', ih]
      · rfl

/-- Stability of the sort: for every key value `t`, the subsequence of
elements whose key is `t` is exactly the same (same elements, same order)
before and after sorting. -/
theorem pySortDescBy_filter_key {α : Type _} (key : α → Int) (t : Int) (l : List α) :
    (pySortDescBy key l).filter (fun a => key a == t) = l.filter (fun a => key a == t) := by
  induction l with
  | nil => rfl
  | cons x xs ih =>
      show (insertDescBy key x (pySortDescBy key xs)).filter (fun a => key a == t) = _
      rw [insertDescBy_filter_key, List.filter_cons, List.filter_cons, ih]

/-- Elements kept by `take n` after the descending sort dominate every
element of the original list that was not kept. -/
theorem pySortDescBy_take_le {α : Type _} (key : α → Int) (n : Nat) (l : List α) (a b : α)
    (ha : a ∈ (pySortDescBy key l).take n) (hb : b ∈ l)
    (hb2 : b ∉ (pySortDescBy key l).take n) : key b ≤ key a := by
  have hs := pySortDescBy_sorted key l
  have hsplit := List.take_append_drop n (pySortDescBy key l)
  rw [← hsplit, List.pairwise_append] at hs
  have hbmem : b ∈ pySortDescBy key l := ((pySortDescBy_perm key l).mem_iff).mpr hb
  rw [← hsplit, List.mem_append] at hbmem
  rcases hbmem with h | h
  · exact absurd h hb2
  · exact hs.2.2 a ha b h

/-! Claims. -/

/-- Claim C2: in every refresh cycle, the merged sequence handed to the
table is a permutation of the alert rows (in fetch order) followed by the
quarantine rows (in fetch order), sorted by the un-converted storage
timestamp in descending order, and for every timestamp value the rows
carrying it appear in exactly their insertion order (alerts first, then
quarantine rows); moreover every row's sort key is the storage timestamp of
the record it was built from, not a converted display time. -/
theorem c2_merge_sorted_stable (lookup : Nat → Option String) (db : Database) (now : Int) :
    (refreshRows lookup db now).Perm
        ((fetchAlerts db).map (alertRow lookup) ++ (fetchQuarantine db now).map qRow) ∧
    (refreshRows lookup db now).Pairwise (fun a b => b.time ≤ a.time) ∧
    (∀ t : Int, (refreshRows lookup db now).filter (fun r => r.time == t) =
        ((fetchAlerts db).map (alertRow lookup) ++ (fetchQuarantine db now).map qRow).filter
          (fun r => r.time == t)) ∧
    (∀ r ∈ refreshRows lookup db now,
        (∃ a ∈ fetchAlerts db, r = alertRow lookup a ∧ r.time = a.timestamp) ∨
        (∃ q ∈ fetchQuarantine db now, r = qRow q ∧ r.time = q.detected_at)) := by
  refine ⟨pySortDescBy_perm _ _, pySortDescBy_sorted (fun r : Row => r.time) _, ?_, ?_⟩
  · intro t
    exact pySortDescBy_filter_key (fun r : Row => r.time) t _
  · intro r hr
    have hr' : r ∈ buildRows lookup (fetchAlerts db) (fetchQuarantine db now) :=
      ((pySortDescBy_perm (fun r : Row => r.time) _).mem_iff).mp hr
    rcases List.mem_append.mp hr' with h | h
    · obtain ⟨a, ha, rfl⟩ := List.mem_map.mp h
      exact Or.inl ⟨a, ha, rfl, rfl⟩
    · obtain ⟨q, hq, rfl⟩ := List.mem_map.mp h
      exact Or.inr ⟨q, hq, rfl, rfl⟩

theorem c2_merge_sorted_stable_witness :
    (refreshRows noChain sampleDb 0).Pairwise (fun a b => b.time ≤ a.time) ∧
    ((∃ a ∈ fetchAlerts sampleDb, qRow q2 = alertRow noChain a ∧ (qRow q2).time = a.timestamp) ∨
      (∃ q ∈ fetchQuarantine sampleDb 0, qRow q2 = qRow q ∧ (qRow q2).time = q.detected_at)) := by
  have h := c2_merge_sorted_stable noChain sampleDb 0
  exact ⟨h.2.1, h.2.2.2 (qRow q2) (by decide)⟩

/-- Claim C1: for every execution of the refresh cycle in which an exception
is raised at some phase, the exception is caught and logged inside `refresh`
(at debug level by the inner quarantine handler, at error level by the
blanket outer handler), and whenever the exception aborts the cycle before
the table-rebuild step (the alert query, the row-building loop, the sort, or
the clearing call itself), the previously displayed rows remain visible
unchanged — the table is not cleared to empty. -/
theorem c1_refresh_exception_caught (lookup : Nat → Option String) (db : Database)
    (now : Int) (tz : Int) (p : Phase) (k : Nat) (prev : TableView) :
    (p = Phase.fetchQP → LogLevel.debug ∈ (refreshExec lookup db now tz (some p) k prev).2) ∧
    (p ≠ Phase.fetchQP → LogLevel.error ∈ (refreshExec lookup db now tz (some p) k prev).2) ∧
    ((p = Phase.fetchAlertsP ∨ p = Phase.buildRowsP ∨ p = Phase.sortRowsP ∨ p = Phase.clearP) →
        (refreshExec lookup db now tz (some p) k prev).1 = prev) := by
  cases p <;> simp [refreshExec]

theorem c1_refresh_exception_caught_witness :
    LogLevel.error ∈ (refreshExec noChain emptyDb 0 0 (some Phase.fetchAlertsP) 0 prevView).2 ∧
    (refreshExec noChain emptyDb 0 0 (some Phase.fetchAlertsP) 0 prevView).1 = prevView :=
  ⟨(c1_refresh_exception_caught noChain emptyDb 0 0 Phase.fetchAlertsP 0 prevView).2.1
      (by decide),
    (c1_refresh_exception_caught noChain emptyDb 0 0 Phase.fetchAlertsP 0 prevView).2.2
      (Or.inl rfl)⟩

/-- The fallback branches of destination resolution: when the alert has no
connection, or its connection's destination address is falsy, the rendered
destination comes from the alert's own fields. -/
theorem dstOf_eq_dstOwn (a : Alert)
    (h : a.connection = none ∨ ∃ conn, a.connection = some conn ∧ strTruthy conn.dst_ip = false) :
    dstOf a = dstOwn a := by
  rcases h with h | ⟨conn, hc, hip⟩
  · simp [dstOf, h]
  · simp [dstOf, hc, hip]

/-- Claim C3: the rendered destination is the connection's address and port
when the connection has a destination address; otherwise the alert's own
destination address with ":port" appended only when the alert has a truthy
destination port; otherwise empty.  When the alert has no destination port
and no connection destination address contributes, the rendered string is
the bare address (or empty) with no port separator appended: in particular
it contains no colon whenever the address itself contains none. -/
theorem c3_destination_resolution (a : Alert) :
    (∀ conn, a.connection = some conn → strTruthy conn.dst_ip = true →
        dstOf a = conn.dst_ip.getD "" ++ ":" ++ toString conn.dst_port) ∧
    ((a.connection = none ∨ ∃ conn, a.connection = some conn ∧ strTruthy conn.dst_ip = false) →
        (strTruthy a.dst_ip = true →
            dstOf a = a.dst_ip.getD "" ++
              (if natTruthy a.dst_port then ":" ++ toString (a.dst_port.getD 0) else "")) ∧
        (strTruthy a.dst_ip = false → dstOf a = "")) ∧
    (natTruthy a.dst_port = false →
        (a.connection = none ∨ ∃ conn, a.connection = some conn ∧ strTruthy conn.dst_ip = false) →
        (dstOf a = "" ∨ dstOf a = a.dst_ip.getD "") ∧
        (':' ∉ (a.dst_ip.getD "").data → ':' ∉ (dstOf a).data)) := by
  refine ⟨?_, ?_, ?_⟩
  · intro conn hc hip
    simp [dstOf, hc, hip]
  · intro h
    have hd := dstOf_eq_dstOwn a h
    constructor
    · intro hip
      rw [hd]
      simp [dstOwn, hip]
    · intro hip
      rw [hd]
      simp [dstOwn, hip]
  · intro hport h
    have hd := dstOf_eq_dstOwn a h
    by_cases hip : strTruthy a.dst_ip
    · have he : dstOf a = a.dst_ip.getD "" := by
        rw [hd]
        simp [dstOwn, hip, hport]
      exact ⟨Or.inr he, fun hc => by rw [he]; exact hc⟩
    · have he : dstOf a = "" := by
        rw [hd]
        simp [dstOwn, hip]
      refine ⟨Or.inl he, ?_⟩
      intro hcol
      rw [he]
      simp

theorem c3_destination_resolution_witness :
    (dstOf sampleAlertNoPort = "" ∨ dstOf sampleAlertNoPort = "10.0.0.9") ∧
    ':' ∉ (dstOf sampleAlertNoPort).data := by
  have h := (c3_destination_resolution sampleAlertNoPort).2.2 (by decide) (Or.inl rfl)
  exact ⟨h.1, h.2 (by decide)⟩

/-- Claim C7: for an alert whose connection has a (truthy) process id, a
failing ancestry lookup is absorbed and the rendered process-chain cell is
"PID <id>"; the row is still produced and still reaches the final sorted
sequence, so the failure never escapes `refresh`. -/
theorem c7_chain_fallback (lookup : Nat → Option String) (a : Alert) (conn : Connection)
    (p : Nat) (hc : a.connection = some conn) (hp : conn.pid = some p) (hp0 : p ≠ 0)
    (hfail : lookup p = none) :
    (alertRow lookup a).process_chain = "PID " ++ toString p ∧
    (∀ (db : Database) (now : Int), a ∈ fetchAlerts db →
        alertRow lookup a ∈ refreshRows lookup db now) := by
  constructor
  · simp [alertRow, chainOf, hc, hp, natTruthy, hp0, hfail]
  · intro db now ha
    have hmem : alertRow lookup a ∈ buildRows lookup (fetchAlerts db) (fetchQuarantine db now) :=
      List.mem_append_left _ (List.mem_map_of_mem _ ha)
    exact ((pySortDescBy_perm (fun r : Row => r.time) _).mem_iff).mpr hmem

theorem c7_chain_fallback_witness :
    (alertRow noChain sampleAlertPid).process_chain = "PID 7" ∧
    alertRow noChain sampleAlertPid ∈ refreshRows noChain sampleDb 0 := by
  have h := c7_chain_fallback noChain sampleAlertPid sampleConn 7 rfl rfl (by decide) rfl
  exact ⟨h.1, h.2 sampleDb 0 (by decide)⟩

/-- Claim C8: a refresh cycle that yields zero alert rows and zero
quarantine rows renders exactly one row, containing the empty-state message
in its first cell, with a span covering all 7 columns. -/
theorem c8_empty_state (lookup : Nat → Option String) (db : Database) (now : Int) (tz : Int)
    (ha : db.alerts = []) (hq : db.qfiles = []) :
    refresh lookup db now tz =
      { cells := [["No security events found.", "", "", "", "", "", ""]]
        span := some (0, 0, 1, 7) } ∧
    (refresh lookup db now tz).cells.length = 1 := by
  have he : refresh lookup db now tz =
      { cells := [["No security events found.", "", "", "", "", "", ""]]
        span := some (0, 0, 1, 7) } := by
    simp [refresh, refreshRows, buildRows, fetchAlerts, fetchQuarantine, ha, hq,
      pySortDescBy, renderTable]
  exact ⟨he, by rw [he]; rfl⟩

theorem c8_empty_state_witness :
    refresh noChain emptyDb 0 0 =
      { cells := [["No security events found.", "", "", "", "", "", ""]]
        span := some (0, 0, 1, 7) } :=
  (c8_empty_state noChain emptyDb 0 0 rfl rfl).1

/-- Claim C9: every quarantine record included in a refresh cycle
contributes a row — present in the final sorted sequence — whose type is
"Quarantine", severity is "high", details are "File quarantined: <filename>",
whose source, destination and process-chain cells are empty, and whose sort
time is the record's detection time.  (The record model exposes exactly the
detection time and filename, which is all the row construction reads.) -/
theorem c9_quarantine_row_shape (lookup : Nat → Option String) (db : Database) (now : Int)
    (q : QuarantinedFile) (hq : q ∈ fetchQuarantine db now) :
    qRow q ∈ refreshRows lookup db now ∧
    (qRow q).type = "Quarantine" ∧ (qRow q).severity = "high" ∧
    (qRow q).details = "File quarantined: " ++ q.filename ∧
    (qRow q).src = "" ∧ (qRow q).dst = "" ∧ (qRow q).process_chain = "" ∧
    (qRow q).time = q.detected_at := by
  refine ⟨?_, rfl, rfl, rfl, rfl, rfl, rfl, rfl⟩
  have hmem : qRow q ∈ buildRows lookup (fetchAlerts db) (fetchQuarantine db now) :=
    List.mem_append_right _ (List.mem_map_of_mem _ hq)
  exact ((pySortDescBy_perm (fun r : Row => r.time) _).mem_iff).mpr hmem

theorem c9_quarantine_row_shape_witness :
    qRow q2 ∈ refreshRows noChain qDb 0 ∧ (qRow q2).severity = "high" := by
  have h := c9_quarantine_row_shape noChain qDb 0 q2 (by decide)
  exact ⟨h.1, h.2.2.1⟩

/-- Claim C10: an absent (None or empty) alert_type renders as "Alert"; an
absent severity or message renders as the empty string; in none of these
cases does the cell contain the literal text "None" of a missing value. -/
theorem c10_missing_optional_fields (lookup : Nat → Option String) (a : Alert) :
    ((a.alert_type = none ∨ a.alert_type = some "") →
        (alertRow lookup a).type = "Alert" ∧ (alertRow lookup a).type ≠ "None") ∧
    ((a.severity = none ∨ a.severity = some "") →
        (alertRow lookup a).severity = "" ∧ (alertRow lookup a).severity ≠ "None") ∧
    ((a.message = none ∨ a.message = some "") →
        (alertRow lookup a).details = "" ∧ (alertRow lookup a).details ≠ "None") := by
  refine ⟨?_, ?_, ?_⟩ <;> rintro (h | h) <;>
    simp only [alertRow, pyOrStr, strTruthy, h] <;> decide

theorem c10_missing_optional_fields_witness :
    (alertRow noChain sampleAlertNoPort).type = "Alert" ∧
    (alertRow noChain sampleAlertNoPort).severity = "" ∧
    (alertRow noChain sampleAlertNoPort).details = "" := by
  have h := c10_missing_optional_fields noChain sampleAlertNoPort
  exact ⟨(h.1 (Or.inl rfl)).1, (h.2.1 (Or.inl rfl)).1, (h.2.2 (Or.inl rfl)).1⟩

/-! Helper lemmas about width lists for the column manager. -/

theorem getD_set_same (l : List Nat) (i w : Nat) (h : i < l.length) :
    (l.set i w).getD i 0 = w := by
  simp [List.getD, List.getElem?_set_self, h]

theorem getD_set_other (l : List Nat) (i j w : Nat) (h : i ≠ j) :
    (l.set i w).getD j 0 = l.getD j 0 := by
  simp [List.getD, List.getElem?_set_ne h]

theorem foldl_set_length (l : List Nat) (cw : Nat) (w : List Nat) :
    (l.foldl (fun ws j => ws.set j cw) w).length = w.length := by
  induction l generalizing w with
  | nil => rfl
  | cons x xs ih => simp [List.foldl, ih]

theorem foldl_setColumnWidth (l : List Nat) (t : TableState) (cw : Nat) :
    l.foldl (fun s i => setColumnWidth s i cw) t =
      { t with layout := { t.layout with
          widths := l.foldl (fun ws i => ws.set i cw) t.layout.widths } } := by
  induction l generalizing t with
  | nil => rfl
  | cons x xs ih =>
      rw [List.foldl_cons, List.foldl_cons, ih]
      rfl

theorem foldl_range_set_getD_lt (n i cw : Nat) (w : List Nat) (hi : i < n) (hn : n ≤ w.length) :
    ((List.range n).foldl (fun ws j => ws.set j cw) w).getD i 0 = cw := by
  induction n with
  | zero => omega
  | succ m ih =>
      rw [List.range_succ, List.foldl_append]
      simp only [List.foldl_cons, List.foldl_nil]
      by_cases him : i = m
      · subst him
        apply getD_set_same
        rw [foldl_set_length]
        omega
      · rw [getD_set_other _ m i cw (by omega)]
        exact ih (by omega) (by omega)

theorem foldl_range_set_getD_ge (n i cw : Nat) (w : List Nat) (hi : n ≤ i) :
    ((List.range n).foldl (fun ws j => ws.set j cw) w).getD i 0 = w.getD i 0 := by
  induction n with
  | zero => rfl
  | succ m ih =>
      rw [List.range_succ, List.foldl_append]
      simp only [List.foldl_cons, List.foldl_nil]
      rw [getD_set_other _ m i cw (by omega)]
      exact ih (by omega)

/-- Claim C4: after `setup` with no saved state under the key, a resize
event at viewport width 900 with 7 columns assigns width 128 (900 // 7) to
each of the first 6 columns, leaves the stretch (last) column's stored width
untouched, and establishes the layout; once `default_set` holds, every
subsequent `handle_resize` is the identity, so auto-distribution never runs
again. -/
theorem c4_first_resize_distributes (settings : Settings) (m : ManagerState)
    (hkey : settingsGet settings m.settings_key = none)
    (hcols : m.table.layout.widths.length = 7)
    (hvw : m.table.viewportWidth = 900) :
    (∀ i : Nat, i < 6 →
        (handle_resize (setup settings m)).table.layout.widths.getD i 0 = 128) ∧
    (handle_resize (setup settings m)).table.layout.widths.getD 6 0 =
        m.table.layout.widths.getD 6 0 ∧
    (handle_resize (setup settings m)).default_set = true ∧
    (∀ m2 : ManagerState, m2.default_set = true → handle_resize m2 = m2) := by
  obtain ⟨⟨⟨ws, ord⟩, sl, vw⟩, sk, ds⟩ := m
  simp only at hcols hvw hkey ⊢
  subst hvw
  have hsetup : setup settings ⟨⟨⟨ws, ord⟩, sl, 900⟩, sk, ds⟩ =
      ⟨⟨⟨ws, ord⟩, true, 900⟩, sk, false⟩ := by
    simp [setup, restore_state, hkey]
  have hhr : handle_resize (setup settings ⟨⟨⟨ws, ord⟩, sl, 900⟩, sk, ds⟩) =
      ⟨⟨⟨(List.range 6).foldl (fun w j => w.set j 128) ws, ord⟩, true, 900⟩, sk, true⟩ := by
    rw [hsetup]
    simp [handle_resize, hcols, foldl_setColumnWidth]
  refine ⟨?_, ?_, ?_, ?_⟩
  · intro i hi
    rw [hhr]
    exact foldl_range_set_getD_lt 6 i 128 ws hi (by omega)
  · rw [hhr]
    exact foldl_range_set_getD_ge 6 6 128 ws (by omega)
  · rw [hhr]
  · intro m2 h2
    simp [handle_resize, h2]

theorem c4_first_resize_distributes_witness :
    (handle_resize (setup [] sampleMgr)).table.layout.widths.getD 0 0 = 128 ∧
    (handle_resize (setup [] sampleMgr)).table.layout.widths.getD 6 0 = 100 ∧
    (handle_resize (setup [] sampleMgr)).default_set = true := by
  have h := c4_first_resize_distributes [] sampleMgr rfl rfl rfl
  exact ⟨h.1 0 (by decide), h.2.1, h.2.2.1⟩

/-- Claim C5: a user-driven column resize synchronously persists the full
header layout under the manager's key, and re-initializing any manager with
the same key restores exactly the persisted layout (save followed by restore
is a round-trip). -/
theorem c5_save_restore_roundtrip (settings : Settings) (m : ManagerState) (i w : Nat) :
    settingsGet (user_column_resize settings m i w).2 m.settings_key =
      some (setColumnWidth m.table i w).layout ∧
    (∀ m2 : ManagerState, m2.settings_key = m.settings_key →
        (setup (user_column_resize settings m i w).2 m2).table.layout =
          (setColumnWidth m.table i w).layout ∧
        (setup (user_column_resize settings m i w).2 m2).default_set = true) := by
  have hget : settingsGet (user_column_resize settings m i w).2 m.settings_key =
      some (setColumnWidth m.table i w).layout := by
    simp [user_column_resize, save_state, settingsSet, settingsGet]
  refine ⟨hget, ?_⟩
  intro m2 hk
  constructor
  · simp [setup, restore_state, hk, hget]
  · simp [setup, restore_state, hk, hget]

theorem c5_save_restore_roundtrip_witness :
    (setup (user_column_resize [] sampleMgr 2 250).2 freshMgr).table.layout =
      { widths := [100, 100, 250, 100, 100, 100, 100], order := [0, 1, 2, 3, 4, 5, 6] } := by
  have h := (c5_save_restore_roundtrip [] sampleMgr 2 250).2 freshMgr rfl
  exact h.1.trans (by decide)

/-- Claim C6: a refresh cycle draws at most the 100 most-recent alerts (no
record left behind is more recent than a fetched one) and at most the 50
most-recent quarantine records whose detection time lies in the trailing
24-hour window; a record detected 24 hours 1 second before the refresh time
is excluded, and one detected 23 hours 59 minutes before (fitting the
50-record budget) is included. -/
theorem c6_limits_and_window (db : Database) (now : Int) :
    (fetchAlerts db).length ≤ 100 ∧
    (fetchQuarantine db now).length ≤ 50 ∧
    (∀ a ∈ fetchAlerts db, ∀ b ∈ db.alerts, b ∉ fetchAlerts db →
        b.timestamp ≤ a.timestamp) ∧
    (∀ p ∈ fetchQuarantine db now, ∀ q ∈ db.qfiles,
        quarantineWindow now ≤ q.detected_at → q ∉ fetchQuarantine db now →
        q.detected_at ≤ p.detected_at) ∧
    (∀ q ∈ fetchQuarantine db now, now - 86400 ≤ q.detected_at) ∧
    (∀ q ∈ db.qfiles, q.detected_at = now - 86401 → q ∉ fetchQuarantine db now) ∧
    (∀ q ∈ db.qfiles, q.detected_at = now - 86340 →
        (db.qfiles.filter (fun p => decide (quarantineWindow now ≤ p.detected_at))).length ≤ 50 →
        q ∈ fetchQuarantine db now) := by
  have hwin : ∀ q ∈ fetchQuarantine db now, now - 86400 ≤ q.detected_at := by
    intro q hq
    have hq1 : q ∈ pySortDescBy (fun r : QuarantinedFile => r.detected_at)
        (db.qfiles.filter (fun r => decide (quarantineWindow now ≤ r.detected_at))) :=
      List.take_subset _ _ hq
    have hq2 := ((pySortDescBy_perm _ _).mem_iff).mp hq1
    have hge := of_decide_eq_true (List.mem_filter.mp hq2).2
    simp only [quarantineWindow] at hge
    omega
  refine ⟨?_, ?_, ?_, ?_, hwin, ?_, ?_⟩
  · exact List.length_take_le _ _
  · exact List.length_take_le _ _
  · intro a ha b hb hb2
    exact pySortDescBy_take_le (fun a : Alert => a.timestamp) 100 db.alerts a b ha hb hb2
  · intro p hp q hq hqw hq2
    have hqf : q ∈ db.qfiles.filter (fun r => decide (quarantineWindow now ≤ r.detected_at)) :=
      List.mem_filter.mpr ⟨hq, decide_eq_true hqw⟩
    exact pySortDescBy_take_le (fun r : QuarantinedFile => r.detected_at) 50 _ p q hp hqf hq2
  · intro q _ he hmem
    have hge := hwin q hmem
    omega
  · intro q hq he hlen
    have hqf : q ∈ db.qfiles.filter (fun r => decide (quarantineWindow now ≤ r.detected_at)) := by
      refine List.mem_filter.mpr ⟨hq, ?_⟩
      simp only [quarantineWindow, decide_eq_true_eq]
      omega
    have hsorted : q ∈ pySortDescBy (fun r : QuarantinedFile => r.detected_at)
        (db.qfiles.filter (fun r => decide (quarantineWindow now ≤ r.detected_at))) :=
      ((pySortDescBy_perm _ _).mem_iff).mpr hqf
    have hlen2 : (pySortDescBy (fun r : QuarantinedFile => r.detected_at)
        (db.qfiles.filter (fun r => decide (quarantineWindow now ≤ r.detected_at)))).length
          ≤ 50 := by
      rw [(pySortDescBy_perm _ _).length_eq]
      exact hlen
    show q ∈ (pySortDescBy (fun r : QuarantinedFile => r.detected_at)
        (db.qfiles.filter (fun r => decide (quarantineWindow now ≤ r.detected_at)))).take 50
    rw [List.take_of_length_le hlen2]
    exact hsorted

theorem c6_limits_and_window_witness :
    q1 ∉ fetchQuarantine qDb 0 ∧ q2 ∈ fetchQuarantine qDb 0 := by
  have h := c6_limits_and_window qDb 0
  exact ⟨h.2.2.2.2.2.1 q1 (by decide) (by decide),
    h.2.2.2.2.2.2 q2 (by decide) (by decide) (by decide)⟩

end Flow
